import Mathlib

/-!
Shallow embedding of the TypeScript/Svelte save-time verification hook
(src/lang/typescript/hooks/typescript-on-save.ts, the richer variant that
combines a type check and a lint run).  External collaborators (filesystem,
spawned processes, the JSON decoder of the host runtime) are modelled as
explicit parameters; everything the script itself computes is translated
function by function from the source.
-/

namespace OpioHook

/-! ### String utilities

The source uses JavaScript string primitives (split, startsWith, endsWith,
includes, trim, global regex match counting).  They are modelled here by
structurally recursive functions over the character list of a string, so
that every definition evaluates inside the kernel.
-/

/-- Model of JavaScript String.prototype.split with a one-character
separator: splits into the (possibly empty) segments between occurrences
of the separator. -/
def splitOnChar (sep : Char) : List Char → List (List Char)
  | [] => [[]]
  | c :: rest =>
    let r := splitOnChar sep rest
    if c = sep then [] :: r
    else
      match r with
      | [] => [[c]]
      | l :: ls => (c :: l) :: ls

/-- Model of output.split with a newline separator, as a list of line
strings. -/
def linesOf (s : String) : List String :=
  (splitOnChar '\n' s.data).map (fun l => String.mk l)

/-- Model of JavaScript String.prototype.startsWith. -/
def strStartsWith (s pat : String) : Bool :=
  List.isPrefixOf pat.data s.data

/-- Model of JavaScript String.prototype.endsWith. -/
def strEndsWith (s suffix : String) : Bool :=
  List.isSuffixOf suffix.data s.data

/-- True when the pattern occurs somewhere in the character list: model of
JavaScript String.prototype.includes for a non-empty pattern. -/
def containsSub (pat : List Char) : List Char → Bool
  | [] => List.isPrefixOf pat []
  | c :: rest => List.isPrefixOf pat (c :: rest) || containsSub pat rest

/-- Model of JavaScript String.prototype.includes. -/
def containsStr (s pat : String) : Bool :=
  containsSub pat.data s.data

/-- Number of positions at which the pattern starts in the character
list.  For the marker strings used by the hook (such as the error and
warning markers) no occurrence can overlap another, so this equals the
number of matches of the corresponding global regex in JavaScript. -/
def countOccAux (pat : List Char) : List Char → Nat
  | [] => 0
  | c :: rest => (if List.isPrefixOf pat (c :: rest) then 1 else 0) + countOccAux pat rest

/-- Model of counting the matches of a literal global regex, as in
output.match of the error marker. -/
def countOccurrences (s pat : String) : Nat :=
  countOccAux pat.data s.data

/-- Model of JavaScript String.prototype.trim. -/
def charTrim (cs : List Char) : List Char :=
  ((cs.dropWhile Char.isWhitespace).reverse.dropWhile Char.isWhitespace).reverse

/-- Simplified posix dirname, used only to select the working directory
handed to the external svelte-check process for a single component file. -/
def dirnameStr (p : String) : String :=
  let parts := (splitOnChar '/' p.data).map (fun l => String.mk l)
  if parts.length ≤ 1 then "." else String.intercalate "/" parts.dropLast

/-! ### Target classification -/

/-- Translation of isTypeScriptOrSvelteFile: the regex there accepts
exactly the strings ending in one of the five supported suffixes. -/
def isTypeScriptOrSvelteFile (filePath : String) : Bool :=
  strEndsWith filePath ".ts" || strEndsWith filePath ".tsx" ||
  strEndsWith filePath ".js" || strEndsWith filePath ".jsx" ||
  strEndsWith filePath ".svelte"

/-! ### Dependency preflight -/

/-- Result of the dependency preflight, translation of the anonymous
record with hasErrors and message fields. -/
structure DependencyStatus where
  hasErrors : Bool
  message : Option String
deriving DecidableEq, Repr

/-- The module-level dependencyCheckCache cell: a timestamp and the
result cached at that time. -/
structure DepCache where
  timestamp : Int
  result : DependencyStatus
deriving DecidableEq, Repr

/-- Outcome of the three external probe commands (which pnpm, pnpm list
svelte-check, pnpm list eslint): true when the probe command succeeds. -/
structure DepProbes where
  pnpmInstalled : Bool
  svelteCheckInstalled : Bool
  eslintInstalled : Bool
deriving DecidableEq, Repr

/-- CACHE_DURATION, five minutes in milliseconds. -/
def CACHE_DURATION : Int := 5 * 60 * 1000

/-- The remediation message printed when pnpm is missing. -/
def pnpmMissingMessage : String :=
  "\n❌ pnpm is not installed!\n\nTo install pnpm, run one of the following:\n  • npm install -g pnpm\n  • curl -fsSL https://get.pnpm.io/install.sh | sh -\n  • brew install pnpm (on macOS)\n\nFor more installation options, visit: https://pnpm.io/installation\n"

/-- The remediation message printed when svelte-check is missing. -/
def svelteCheckMissingMessage : String :=
  "\n❌ svelte-check is not installed in this project!\n\nTo install the required dependencies, run:\n  pnpm install\n\nOr specifically install svelte-check:\n  pnpm add -D svelte-check\n\nMake sure you\x27re in the project root directory when running these commands.\n"

/-- The remediation message printed when eslint is missing. -/
def eslintMissingMessage : String :=
  "\n❌ eslint is not installed in this project!\n\nTo install the required dependencies, run:\n  pnpm install\n\nOr specifically install eslint:\n  pnpm add -D eslint\n\nMake sure you\x27re in the project root directory when running these commands.\n"

/-- The probing tail of checkDependencies: tries pnpm, then svelte-check,
then eslint, stopping at the first missing one, and stores the result in
the cache together with the current time. -/
def probeDependencies (now : Int) (probes : DepProbes) :
    DependencyStatus × Option DepCache :=
  if !probes.pnpmInstalled then
    let result : DependencyStatus := ⟨true, some pnpmMissingMessage⟩
    (result, some ⟨now, result⟩)
  else if !probes.svelteCheckInstalled then
    let result : DependencyStatus := ⟨true, some svelteCheckMissingMessage⟩
    (result, some ⟨now, result⟩)
  else if !probes.eslintInstalled then
    let result : DependencyStatus := ⟨true, some eslintMissingMessage⟩
    (result, some ⟨now, result⟩)
  else
    let result : DependencyStatus := ⟨false, none⟩
    (result, some ⟨now, result⟩)

/-- Translation of checkDependencies.  The module-level cache cell is
threaded explicitly: the function receives the current cache and returns
the (possibly updated) cache next to the status.  A cached result is
reused when it is younger than CACHE_DURATION. -/
def checkDependencies (cache : Option DepCache) (now : Int) (probes : DepProbes) :
    DependencyStatus × Option DepCache :=
  match cache with
  | some c =>
    if now - c.timestamp < CACHE_DURATION then (c.result, some c)
    else probeDependencies now probes
  | none => probeDependencies now probes

/-! ### External process model

execSync is modelled as a map from a command line (and an optional working
directory) to an exit status and the two captured streams.  A status of
some 0 corresponds to a normal return of execSync; any other status
corresponds to the thrown error object, whose status field is absent
(none) when the process could not report one. -/

/-- Captured result of one spawned external process. -/
structure ProcResult where
  status : Option Nat
  stdout : String
  stderr : String
deriving DecidableEq, Repr

/-- The filesystem facts the hook queries: fs.existsSync and the isFile
bit of fs.statSync. -/
structure FileSystem where
  existsPath : String → Bool
  isFile : String → Bool

/-- The ambient environment of one invocation: filesystem, current clock
value in milliseconds, the outcome of the dependency probes, and the
behaviour of every spawnable command. -/
structure World where
  fs : FileSystem
  now : Int
  probes : DepProbes
  exec : String → Option String → ProcResult

/-- Command line used for a single TypeScript file. -/
def tscCmdFor (target : String) : String :=
  "pnpm exec tsc --noEmit --skipLibCheck \"" ++ target ++ "\""

/-- Command line used for a single Svelte file (run from its directory). -/
def svelteCheckSingleCmd : String :=
  "pnpm exec svelte-check --output human-verbose --tsconfig ./tsconfig.json --threshold error --fail-on-warnings false"

/-- Command line used for the whole-project check. -/
def svelteCheckFullCmd : String :=
  "pnpm exec svelte-check --output human-verbose --tsconfig ./tsconfig.json"

/-- Command line used for the eslint run on one file. -/
def eslintCmdFor (target : String) : String :=
  "pnpm exec eslint --cache --cache-location .eslintcache \"" ++ target ++ "\""

/-- Strategy selection for the type-checking process: tsc for a single
TypeScript file, svelte-check from the file directory for a single Svelte
file, full-project svelte-check otherwise. -/
def typeCheckProc (w : World) (target : String) : ProcResult :=
  let isSingleFile := w.fs.existsPath target && w.fs.isFile target
  if isSingleFile && strEndsWith target ".ts" then
    w.exec (tscCmdFor target) none
  else if isSingleFile && strEndsWith target ".svelte" then
    w.exec svelteCheckSingleCmd (some (dirnameStr target))
  else
    w.exec svelteCheckFullCmd none

/-- Exit code recovered from a process result, as the source recovers it:
the normal return means 0, a thrown error contributes err.status, and a
missing status defaults to 1. -/
def execExitCode (r : ProcResult) : Nat :=
  match r.status with
  | some s => s
  | none => 1

/-- The command-not-found diagnosis performed in the catch branch of the
type-check invocation: the process did not exit cleanly, produced no
standard output, and its standard error carries a shell not-found
signature. -/
def spawnFailure (r : ProcResult) : Bool :=
  !(r.status == some 0) && (r.stdout == "") && !(r.stderr == "") &&
    (containsStr r.stderr "command not found" || containsStr r.stderr "not recognized")

/-! ### Output parsing -/

/-- Value of a digit run, as parseInt reads it. -/
def digitsVal (ds : List Char) : Nat :=
  ds.foldl (fun n c => n * 10 + (c.toNat - 48)) 0

/-- Greedy run of decimal digits (the d-plus part of the summary regex). -/
def parseNum (cs : List Char) : Option (Nat × List Char) :=
  let ds := cs.takeWhile Char.isDigit
  if ds.isEmpty then none else some (digitsVal ds, cs.drop ds.length)

/-- One-or-more whitespace (the s-plus part of the summary regex). -/
def skipWs1 : List Char → Option (List Char)
  | [] => none
  | c :: rest => if c.isWhitespace then some (rest.dropWhile Char.isWhitespace) else none

/-- Literal characters expected verbatim. -/
def expectLit (lit : List Char) (cs : List Char) : Option (List Char) :=
  if List.isPrefixOf lit cs then some (cs.drop lit.length) else none

/-- Optional trailing letter s (the plural marker of the summary regex). -/
def optS : List Char → List Char
  | [] => []
  | c :: rest => if c = 's' then rest else c :: rest

/-- Attempt to read the eslint summary at the current position: the cross
mark, the problem total, then the error and warning counts between
parentheses, exactly as the summary regex of the source demands.  Returns
the captured error and warning counts. -/
def matchSummaryAt (cs : List Char) : Option (Nat × Nat) :=
  match expectLit ['✖'] cs with
  | none => none
  | some cs =>
  match skipWs1 cs with
  | none => none
  | some cs =>
  match parseNum cs with
  | none => none
  | some (_total, cs) =>
  match skipWs1 cs with
  | none => none
  | some cs =>
  match expectLit "problem".data cs with
  | none => none
  | some cs =>
  match skipWs1 (optS cs) with
  | none => none
  | some cs =>
  match expectLit ['('] cs with
  | none => none
  | some cs =>
  match parseNum cs with
  | none => none
  | some (errors, cs) =>
  match skipWs1 cs with
  | none => none
  | some cs =>
  match expectLit "error".data cs with
  | none => none
  | some cs =>
  match expectLit [','] (optS cs) with
  | none => none
  | some cs =>
  match skipWs1 cs with
  | none => none
  | some cs =>
  match parseNum cs with
  | none => none
  | some (warnings, cs) =>
  match skipWs1 cs with
  | none => none
  | some cs =>
  match expectLit "warning".data cs with
  | none => none
  | some cs =>
  match expectLit [')'] (optS cs) with
  | none => none
  | some _ => some (errors, warnings)

/-- Leftmost match of the eslint summary pattern in a line, as the
JavaScript regex search finds it. -/
def scanSummary : List Char → Option (Nat × Nat)
  | [] => none
  | c :: rest =>
    match matchSummaryAt (c :: rest) with
    | some r => some r
    | none => scanSummary rest

/-! ### Derived per-tool quantities

The intermediate values of processTarget are exposed as named functions
of the world and the target so that the aggregation facts can be stated
about them. -/

/-- Raw standard output retained from the type-check invocation (the
return value on success, err.stdout on failure). -/
def svelteCheckOutputOf (w : World) (target : String) : String :=
  (typeCheckProc w target).stdout

/-- Exit code retained from the type-check invocation. -/
def svelteCheckExitCodeOf (w : World) (target : String) : Nat :=
  execExitCode (typeCheckProc w target)

/-- typeErrorCount: occurrences of the error marker in the type-check
output. -/
def typeErrorCountOf (w : World) (target : String) : Nat :=
  countOccurrences (svelteCheckOutputOf w target) "Error:"

/-- typeWarningCount: occurrences of the warning marker in the type-check
output. -/
def typeWarningCountOf (w : World) (target : String) : Nat :=
  countOccurrences (svelteCheckOutputOf w target) "Warning:"

/-- The guard that decides whether eslint runs at all: an existing
regular file with a supported suffix. -/
def runEslintFor (w : World) (target : String) : Bool :=
  w.fs.existsPath target && w.fs.isFile target && isTypeScriptOrSvelteFile target

/-- The eslint process result (consulted only when the guard holds). -/
def eslintRunOf (w : World) (target : String) : ProcResult :=
  w.exec (eslintCmdFor target) none

/-- Exit code retained from the eslint invocation; stays 0 when eslint
was not invoked. -/
def eslintExitCodeOf (w : World) (target : String) : Nat :=
  if runEslintFor w target then execExitCode (eslintRunOf w target) else 0

/-- Standard output retained from the eslint invocation; stays empty when
eslint was not invoked. -/
def eslintOutputOf (w : World) (target : String) : String :=
  if runEslintFor w target then (eslintRunOf w target).stdout else ""

/-- Error and warning counts parsed from the eslint output.  The source
parses them only in the catch branch (a nonzero exit), from the first
output line containing the word problem; both counts stay 0 otherwise. -/
def eslintCountsOf (w : World) (target : String) : Nat × Nat :=
  if runEslintFor w target ∧ ¬((eslintRunOf w target).status = some 0) then
    match (linesOf (eslintRunOf w target).stdout).find? (fun line => containsStr line "problem") with
    | some summaryLine =>
      match scanSummary summaryLine.data with
      | some counts => counts
      | none => (0, 0)
    | none => (0, 0)
  else (0, 0)

/-- eslintErrorCount. -/
def eslintErrorCountOf (w : World) (target : String) : Nat :=
  (eslintCountsOf w target).fst

/-- eslintWarningCount. -/
def eslintWarningCountOf (w : World) (target : String) : Nat :=
  (eslintCountsOf w target).snd

/-- totalErrorCount, the aggregate of the two per-tool error counts. -/
def totalErrorCountOf (w : World) (target : String) : Nat :=
  typeErrorCountOf w target + eslintErrorCountOf w target

/-- totalWarningCount, the aggregate of the two per-tool warning counts. -/
def totalWarningCountOf (w : World) (target : String) : Nat :=
  typeWarningCountOf w target + eslintWarningCountOf w target

/-! ### Failure excerpts -/

/-- Translation of the type-error excerpt builder: every line that starts
with the error marker contributes a window of one line of context before
and two after, at most the first five windows are kept, and the windows
are joined by the divider line. -/
def typeErrorLinesOf (output : String) : String :=
  let arr := linesOf output
  String.intercalate "\n--\n"
    ((((List.range arr.length).map fun index =>
        if strStartsWith (arr.getD index "") "Error:" then
          some (String.intercalate "\n"
            ((if index > 0 then [arr.getD (index - 1) ""] else [])
              ++ [arr.getD index ""]
              ++ (if index < arr.length - 1 then [arr.getD (index + 1) ""] else [])
              ++ (if index < arr.length - 2 then [arr.getD (index + 2) ""] else [])))
        else none).filterMap id).take 5)

/-- Translation of the eslint excerpt builder: nonblank lines that are
not the summary line, capped at ten. -/
def eslintLinesOf (output : String) : String :=
  String.intercalate "\n"
    (((linesOf output).filter
        (fun line => !(charTrim line.data).isEmpty && !strStartsWith line "✖")).take 10)

/-! ### Responses -/

/-- Per-tool block of the response (the svelte_check and eslint fields). -/
structure ToolReport where
  exit_code : Nat
  error_count : Nat
  warning_count : Nat
  output : Option String := none
deriving DecidableEq, Repr

/-- The HookResponse record of the source; absent JSON fields are none. -/
structure HookResponse where
  target : Option String := none
  tool : Option String := none
  success : Option Bool := none
  skipped : Option Bool := none
  reason : Option String := none
  decision : Option String := none
  error : Option String := none
  svelte_check : Option ToolReport := none
  eslint : Option ToolReport := none
deriving DecidableEq, Repr

/-- The part of processTarget after dependency check and classification:
run the type check (and eslint when the target is a single supported
file), then combine the results.  Returns the response next to the
unchanged dependency cache. -/
def checksPhase (w : World) (cache : Option DepCache) (target : String) :
    HookResponse × Option DepCache :=
  if spawnFailure (typeCheckProc w target) then
    ({ target := some target, success := some false,
       error := some "Failed to run svelte-check. Dependencies may be missing." }, cache)
  else if svelteCheckExitCodeOf w target = 0 ∧ eslintExitCodeOf w target = 0 then
    ({ target := some target, success := some true,
       svelte_check := some
         { exit_code := svelteCheckExitCodeOf w target,
           error_count := typeErrorCountOf w target,
           warning_count := typeWarningCountOf w target },
       eslint := some
         { exit_code := eslintExitCodeOf w target,
           error_count := eslintErrorCountOf w target,
           warning_count := eslintWarningCountOf w target } }, cache)
  else
    ({ target := some target, success := some false,
       svelte_check := some
         { exit_code := svelteCheckExitCodeOf w target,
           error_count := typeErrorCountOf w target,
           warning_count := typeWarningCountOf w target,
           output := if typeErrorCountOf w target > 0
             then some (typeErrorLinesOf (svelteCheckOutputOf w target)) else none },
       eslint := some
         { exit_code := eslintExitCodeOf w target,
           error_count := eslintErrorCountOf w target,
           warning_count := eslintWarningCountOf w target,
           output := if eslintErrorCountOf w target > 0
             then some (eslintLinesOf (eslintOutputOf w target)) else none } }, cache)

/-- Translation of processTarget: dependency preflight first, then
single-file classification (the inner nonexistence test is kept exactly
as in the source, where it sits under a guard that already requires the
path to exist), then the check phase. -/
def processTarget (w : World) (cache : Option DepCache) (target : String) :
    HookResponse × Option DepCache :=
  let dep := checkDependencies cache w.now w.probes
  if dep.fst.hasErrors then
    ({ target := some target, success := some false,
       error := some "Missing required dependencies. See error message above." }, dep.snd)
  else if w.fs.existsPath target && w.fs.isFile target then
    if !isTypeScriptOrSvelteFile target then
      ({ target := some target, skipped := some true,
         reason := some "not a TypeScript/Svelte file" }, dep.snd)
    else if !(w.fs.existsPath target) then
      ({ target := some target, skipped := some true,
         reason := some "file does not exist" }, dep.snd)
    else checksPhase w dep.snd target
  else checksPhase w dep.snd target

/-! ### Hook mode -/

/-- The fields of the parsed stdin payload that the hook consults. -/
structure ClaudeHookInput where
  tool_name : String
  tool_input_file_path : Option String
deriving DecidableEq, Repr

/-- What the end-of-stdin handler leaves behind: the JSON record written
to standard output, the process exit code (0 when the handler returns
without an explicit exit), and the final dependency cache. -/
structure HookModeOutcome where
  response : HookResponse
  exitCode : Nat
  cache : Option DepCache
deriving Repr

/-- Reading of result.svelte_check error_count with the or-zero default. -/
def hookTypeErrorCount (r : HookResponse) : Nat :=
  (r.svelte_check.map fun sc => sc.error_count).getD 0

/-- Reading of result.eslint error_count with the or-zero default. -/
def hookEslintErrorCount (r : HookResponse) : Nat :=
  (r.eslint.map fun el => el.error_count).getD 0

/-- totalErrors as recomputed by the hook-mode block branch. -/
def hookTotalErrors (r : HookResponse) : Nat :=
  hookTypeErrorCount r + hookEslintErrorCount r

/-- Translation of the end-of-stream callback of handleHookMode.  The
raw stdin text and the verdict of the JSON decoder (an external
collaborator) are passed in; parsed is none exactly when JSON.parse
throws.  Empty input is answered first; then a parse failure; then the
tool-name dispatch, single-file skip, the check pipeline, and the block
or pass-through rendering. -/
def handleHookStdinEnd (w : World) (cache : Option DepCache) (inputData : String)
    (parsed : Option ClaudeHookInput) : HookModeOutcome :=
  if inputData = "" then
    ⟨{ error := some "No input received" }, 0, cache⟩
  else
    match parsed with
    | none => ⟨{ error := some "Invalid JSON input" }, 1, cache⟩
    | some hookInput =>
      let toolName := hookInput.tool_name
      if toolName = "Write" ∨ toolName = "Edit" ∨ toolName = "MultiEdit" then
        match hookInput.tool_input_file_path with
        | some filePath =>
          if filePath = "" then
            ⟨{ error := some "No file_path found in tool input" }, 0, cache⟩
          else if !isTypeScriptOrSvelteFile filePath then
            ⟨{ tool := some toolName, target := some filePath, skipped := some true,
               reason := some "not a TypeScript/Svelte file" }, 0, cache⟩
          else
            let result := (processTarget w cache filePath).fst
            let cacheA := (processTarget w cache filePath).snd
            if result.success = some false then
              let typeErrorCount := hookTypeErrorCount result
              let eslintErrorCount := hookEslintErrorCount result
              let totalErrors := typeErrorCount + eslintErrorCount
              let msg1 := "The file has errors that must be fixed before continuing.\nPlease fix ALL the following issues:\n\n"
              let msg2 := if typeErrorCount > 0 then
                  msg1 ++ "TypeScript Errors (" ++ toString typeErrorCount ++ "):\n"
                    ++ ((result.svelte_check.bind fun sc => sc.output).getD "") ++ "\n\n"
                else msg1
              let msg3 := if eslintErrorCount > 0 then
                  msg2 ++ "ESLint Errors (" ++ toString eslintErrorCount ++ "):\n"
                    ++ ((result.eslint.bind fun el => el.output).getD "") ++ "\n\n"
                else msg2
              let errorMessage := if totalErrors = 0 ∧ result.error.isSome
                then result.error.getD "" else msg3
              ⟨{ decision := some "block",
                 reason := some (errorMessage ++ "\nFix these issues and try again.") }, 2, cacheA⟩
            else
              ⟨result, 0, cacheA⟩
        | none => ⟨{ error := some "No file_path found in tool input" }, 0, cache⟩
      else
        ⟨{ tool := some toolName, skipped := some true,
           reason := some "not a file editing tool" }, 0, cache⟩

/-! ### Concrete fixtures used by witnesses and counterexamples -/

/-- A filesystem where no path exists. -/
def fsEmpty : FileSystem := ⟨fun _ => false, fun _ => false⟩

/-- A filesystem where exactly a.ts exists as a regular file. -/
def fsATs : FileSystem := ⟨fun p => p == "a.ts", fun p => p == "a.ts"⟩

/-- A filesystem where exactly x.png exists as a regular file. -/
def fsPng : FileSystem := ⟨fun p => p == "x.png", fun p => p == "x.png"⟩

/-- An execSync oracle where every command exits 0 with empty output. -/
def execAllOk : String → Option String → ProcResult := fun _ _ => ⟨some 0, "", ""⟩

/-- All dependency probes succeed. -/
def probesAll : DepProbes := ⟨true, true, true⟩

/-- The pnpm probe fails. -/
def probesNoPnpm : DepProbes := ⟨false, true, true⟩

/-- Every dependency probe fails. -/
def probesNone : DepProbes := ⟨false, false, false⟩

/-- Healthy world: a.ts on disk, all deps present, tools exit 0. -/
def wOk : World := ⟨fsATs, 0, probesAll, execAllOk⟩

/-- World with an empty filesystem but healthy tools. -/
def wMissing : World := ⟨fsEmpty, 0, probesAll, execAllOk⟩

/-- World where the pnpm probe fails. -/
def wNoDeps : World := ⟨fsATs, 0, probesNoPnpm, execAllOk⟩

/-- World where x.png exists, all deps present. -/
def wPng : World := ⟨fsPng, 0, probesAll, execAllOk⟩

/-- A hook payload for a Write of a.ts. -/
def sampleWriteInput : ClaudeHookInput := ⟨"Write", some "a.ts"⟩

/-- The raw stdin text corresponding to sampleWriteInput. -/
def sampleStdin : String :=
  "\x7b\x22tool_name\x22:\x22Write\x22,\x22tool_input\x22:\x7b\x22file_path\x22:\x22a.ts\x22\x7d\x7d"

/-! ### Claims -/

/-- C10: in hook mode, end-of-stream with zero bytes received emits the
no-input error record and terminates with exit code 0, not 1. -/
theorem C10_empty_stdin (w : World) (cache : Option DepCache)
    (parsed : Option ClaudeHookInput) :
    (handleHookStdinEnd w cache "" parsed).response.error = some "No input received" ∧
    (handleHookStdinEnd w cache "" parsed).exitCode = 0 :=
  ⟨rfl, rfl⟩

/-- C5: in hook mode, non-empty stdin that the JSON decoder rejects
yields the invalid-input error record and exit code 1, never 2. -/
theorem C5_invalid_json (w : World) (cache : Option DepCache) (inputData : String)
    (hne : inputData ≠ "") :
    (handleHookStdinEnd w cache inputData none).response.error = some "Invalid JSON input" ∧
    (handleHookStdinEnd w cache inputData none).exitCode = 1 := by
  unfold handleHookStdinEnd
  rw [if_neg hne]
  exact ⟨rfl, rfl⟩

/-- Witness for C5 at a concrete unparseable payload. -/
theorem C5_witness :
    (handleHookStdinEnd wOk none "not json" none).response.error = some "Invalid JSON input" ∧
    (handleHookStdinEnd wOk none "not json" none).exitCode = 1 :=
  C5_invalid_json wOk none "not json" (by decide)

/-- C6: in hook mode, any tool name outside Write, Edit, MultiEdit is a
pass-through: a skip record and exit code 0, whatever the file path is. -/
theorem C6_pass_through (w : World) (cache : Option DepCache) (inputData : String)
    (h : ClaudeHookInput) (hne : inputData ≠ "")
    (htool : ¬(h.tool_name = "Write" ∨ h.tool_name = "Edit" ∨ h.tool_name = "MultiEdit")) :
    (handleHookStdinEnd w cache inputData (some h)).response =
      { tool := some h.tool_name, skipped := some true,
        reason := some "not a file editing tool" } ∧
    (handleHookStdinEnd w cache inputData (some h)).exitCode = 0 := by
  unfold handleHookStdinEnd
  simp [hne, htool]

/-- Witness for C6 at a Read payload with an invalid file path. -/
theorem C6_witness :
    (handleHookStdinEnd wOk none "x" (some ⟨"Read", some "/no/such/file.xyz"⟩)).response =
      { tool := some "Read", skipped := some true,
        reason := some "not a file editing tool" } ∧
    (handleHookStdinEnd wOk none "x" (some ⟨"Read", some "/no/such/file.xyz"⟩)).exitCode = 0 :=
  C6_pass_through wOk none "x" ⟨"Read", some "/no/such/file.xyz"⟩ (by decide) (by decide)

/-- C7: a preflight call strictly inside the TTL window returns the
cached status unchanged and consults no probe; once the TTL has elapsed
the call re-probes the tools. -/
theorem C7_cache_ttl (c : DepCache) (now : Int) (p q : DepProbes) :
    (now - c.timestamp < CACHE_DURATION →
      checkDependencies (some c) now p = (c.result, some c) ∧
      checkDependencies (some c) now p = checkDependencies (some c) now q) ∧
    (¬ now - c.timestamp < CACHE_DURATION →
      checkDependencies (some c) now p = probeDependencies now p) := by
  constructor
  · intro h
    constructor <;> simp [checkDependencies, h]
  · intro h
    simp [checkDependencies, h]

/-- Witness for C7: a healthy status cached at time 0 is still returned
at time 1000 although every probe now fails, and a call after the TTL
re-probes and returns a different status. -/
theorem C7_witness :
    (checkDependencies (some ⟨0, ⟨false, none⟩⟩) 1000 probesNone).fst =
      (⟨false, none⟩ : DependencyStatus) ∧
    (checkDependencies (some ⟨0, ⟨false, none⟩⟩) 400000 probesNone).fst ≠
      (⟨false, none⟩ : DependencyStatus) := by
  constructor
  · have h := (C7_cache_ttl ⟨0, ⟨false, none⟩⟩ 1000 probesNone probesAll).1 (by decide)
    rw [h.1]
  · have h := (C7_cache_ttl ⟨0, ⟨false, none⟩⟩ 400000 probesNone probesAll).2 (by decide)
    rw [h]
    decide

/-- C1 counterexample: in hook mode with the pnpm probe failing, a Write
of a supported file is answered with a block decision and exit code 2,
not with a non-block outcome and exit code 1 as the claim states. -/
theorem C1_counterexample :
    (handleHookStdinEnd wNoDeps none sampleStdin (some sampleWriteInput)).response.decision =
      some "block" ∧
    (handleHookStdinEnd wNoDeps none sampleStdin (some sampleWriteInput)).exitCode = 2 := by
  decide

/-- C1 amended: in hook mode, when the dependency preflight fails on a
checked Write, Edit or MultiEdit of a supported file, the response is a
block decision whose reason is the dependency error message, and the
process exit code is 2. -/
theorem C1_amended (w : World) (cache : Option DepCache) (inputData : String)
    (h : ClaudeHookInput) (fp : String)
    (hne : inputData ≠ "")
    (htool : h.tool_name = "Write" ∨ h.tool_name = "Edit" ∨ h.tool_name = "MultiEdit")
    (hfp : h.tool_input_file_path = some fp)
    (hfpne : fp ≠ "")
    (hts : isTypeScriptOrSvelteFile fp = true)
    (hdep : (checkDependencies cache w.now w.probes).fst.hasErrors = true) :
    (handleHookStdinEnd w cache inputData (some h)).response.decision = some "block" ∧
    (handleHookStdinEnd w cache inputData (some h)).response.reason =
      some "Missing required dependencies. See error message above.\nFix these issues and try again." ∧
    (handleHookStdinEnd w cache inputData (some h)).exitCode = 2 := by
  have hpt : (processTarget w cache fp).fst =
      { target := some fp, success := some false,
        error := some "Missing required dependencies. See error message above." } := by
    unfold processTarget
    simp [hdep]
  unfold handleHookStdinEnd
  simp [hne, htool, hfp, hfpne, hts, hpt, hookTypeErrorCount, hookEslintErrorCount]

/-- Witness for the amended C1 at a concrete failing world. -/
theorem C1_witness :
    (handleHookStdinEnd wNoDeps none "payload" (some sampleWriteInput)).response.decision =
      some "block" ∧
    (handleHookStdinEnd wNoDeps none "payload" (some sampleWriteInput)).response.reason =
      some "Missing required dependencies. See error message above.\nFix these issues and try again." ∧
    (handleHookStdinEnd wNoDeps none "payload" (some sampleWriteInput)).exitCode = 2 :=
  C1_amended wNoDeps none "payload" sampleWriteInput "a.ts" (by decide) (by decide)
    (by decide) (by decide) (by decide) (by decide)

/-- C2: at a nonexistent single-file target the classifier does not
yield the file-does-not-exist skip; the guard around that branch already
requires existence, so the target falls through and the full project
check runs (here it succeeds, producing a success record). -/
theorem C2_nonexistent_runs_full_check :
    (processTarget wMissing none "missing.ts").fst.skipped = none ∧
    (processTarget wMissing none "missing.ts").fst.reason = none ∧
    (processTarget wMissing none "missing.ts").fst.success = some true := by
  decide

/-- Helper: every response of the check phase leaves the skipped field
absent. -/
theorem checksPhase_skipped_none (w : World) (cache : Option DepCache) (target : String) :
    (checksPhase w cache target).fst.skipped = none := by
  unfold checksPhase
  split
  · rfl
  · split <;> rfl

/-- C3 counterexample: a target with an unsupported suffix that does not
exist on disk is not skipped (the whole-project check runs instead), so
unsupported suffixes are not always skipped. -/
theorem C3_counterexample :
    isTypeScriptOrSvelteFile "x.png" = false ∧
    (processTarget wMissing none "x.png").fst.skipped = none := by
  decide

/-- C3 amended: a supported suffix is never skipped; an unsupported
suffix on an existing regular file is always skipped with the
not-a-supported-file reason (given a healthy dependency preflight). -/
theorem C3_amended (w : World) (cache : Option DepCache) (target : String)
    (hdep : (checkDependencies cache w.now w.probes).fst.hasErrors = false) :
    (isTypeScriptOrSvelteFile target = true →
      (processTarget w cache target).fst.skipped = none) ∧
    (w.fs.existsPath target = true → w.fs.isFile target = true →
      isTypeScriptOrSvelteFile target = false →
      (processTarget w cache target).fst.skipped = some true ∧
      (processTarget w cache target).fst.reason = some "not a TypeScript/Svelte file") := by
  constructor
  · intro hts
    have hskip := checksPhase_skipped_none w (checkDependencies cache w.now w.probes).snd target
    unfold processTarget
    by_cases hx : (w.fs.existsPath target && w.fs.isFile target) = true
    · have hex : w.fs.existsPath target = true := by
        have hab : w.fs.existsPath target = true ∧ w.fs.isFile target = true := by
          simpa using hx
        exact hab.1
      simp [hdep, hx, hts, hex, hskip]
    · simp [hdep, hx, hskip]
  · intro hex hfile hts
    unfold processTarget
    simp [hdep, hex, hfile, hts]

/-- Witness for the amended C3: an existing png file is skipped, an
existing ts file is not. -/
theorem C3_witness :
    (processTarget wPng none "x.png").fst.skipped = some true ∧
    (processTarget wOk none "a.ts").fst.skipped = none := by
  constructor
  · exact ((C3_amended wPng none "x.png" (by decide)).2 (by decide) (by decide) (by decide)).1
  · exact (C3_amended wOk none "a.ts" (by decide)).1 (by decide)

/-- Helper: when the preflight is healthy and the target is not an
existing regular file with an unsupported suffix, processTarget runs the
check phase. -/
theorem processTarget_checks (w : World) (cache : Option DepCache) (target : String)
    (hdep : (checkDependencies cache w.now w.probes).fst.hasErrors = false)
    (hclass : ¬(w.fs.existsPath target = true ∧ w.fs.isFile target = true ∧
      isTypeScriptOrSvelteFile target = false)) :
    processTarget w cache target =
      checksPhase w (checkDependencies cache w.now w.probes).snd target := by
  unfold processTarget
  by_cases hx : (w.fs.existsPath target && w.fs.isFile target) = true
  · have hab : w.fs.existsPath target = true ∧ w.fs.isFile target = true := by
      simpa using hx
    cases hts : isTypeScriptOrSvelteFile target with
    | false => exact absurd ⟨hab.1, hab.2, hts⟩ hclass
    | true => simp [hdep, hx, hts, hab.1]
  · simp [hdep, hx]

/-- C4: for every check run (healthy preflight, target not skipped by
classification, type-check process spawned), the success field of the
outcome is true exactly when the type-check exit code and the eslint
exit code (0 when eslint was not invoked) are both zero, and false
exactly otherwise. -/
theorem C4_success_iff (w : World) (cache : Option DepCache) (target : String)
    (hdep : (checkDependencies cache w.now w.probes).fst.hasErrors = false)
    (hclass : ¬(w.fs.existsPath target = true ∧ w.fs.isFile target = true ∧
      isTypeScriptOrSvelteFile target = false))
    (hspawn : spawnFailure (typeCheckProc w target) = false) :
    ((processTarget w cache target).fst.success = some true ↔
      (svelteCheckExitCodeOf w target = 0 ∧ eslintExitCodeOf w target = 0)) ∧
    ((processTarget w cache target).fst.success = some false ↔
      ¬(svelteCheckExitCodeOf w target = 0 ∧ eslintExitCodeOf w target = 0)) := by
  rw [processTarget_checks w cache target hdep hclass]
  unfold checksPhase
  by_cases hc : svelteCheckExitCodeOf w target = 0 ∧ eslintExitCodeOf w target = 0
  · simp [hspawn, hc]
  · simp [hspawn, hc]

/-- Witness for C4: all tools exit 0 on a.ts, so success is true. -/
theorem C4_witness : (processTarget wOk none "a.ts").fst.success = some true := by
  have h := C4_success_iff wOk none "a.ts" (by decide) (by decide) (by decide)
  exact h.1.mpr (by decide)

/-- C9: for every check run, the aggregate total error count of the
source equals the sum of the per-tool error counts carried by the
response (as the hook-mode block branch recomputes it), and likewise for
warnings. -/
theorem C9_totals (w : World) (cache : Option DepCache) (target : String)
    (hdep : (checkDependencies cache w.now w.probes).fst.hasErrors = false)
    (hclass : ¬(w.fs.existsPath target = true ∧ w.fs.isFile target = true ∧
      isTypeScriptOrSvelteFile target = false))
    (hspawn : spawnFailure (typeCheckProc w target) = false) :
    totalErrorCountOf w target = hookTotalErrors (processTarget w cache target).fst ∧
    totalWarningCountOf w target =
      ((processTarget w cache target).fst.svelte_check.map fun sc => sc.warning_count).getD 0 +
      ((processTarget w cache target).fst.eslint.map fun el => el.warning_count).getD 0 := by
  rw [processTarget_checks w cache target hdep hclass]
  unfold checksPhase
  by_cases hc : svelteCheckExitCodeOf w target = 0 ∧ eslintExitCodeOf w target = 0
  · simp [hspawn, hc, hookTotalErrors, hookTypeErrorCount, hookEslintErrorCount,
      totalErrorCountOf, totalWarningCountOf]
  · simp [hspawn, hc, hookTotalErrors, hookTypeErrorCount, hookEslintErrorCount,
      totalErrorCountOf, totalWarningCountOf]

/-- Witness for C9 at a healthy world where every count is zero. -/
theorem C9_witness : hookTotalErrors (processTarget wOk none "a.ts").fst = 0 := by
  have h := C9_totals wOk none "a.ts" (by decide) (by decide) (by decide)
  rw [← h.1]
  decide

/-! ### C8: the failure excerpt, stated from the words of the claim

specErrorWindow and specErrorExcerpt follow the claim text: for each
line beginning with the error marker, the window is the line together
with one line before (when it exists) and the next two lines (as many as
exist); at most the first five windows are joined by the divider. -/

/-- The excerpt window around error line i, phrased as the claim phrases
it: one line before when it exists, the line, then up to two following
lines. -/
def specErrorWindow (arr : List String) (i : Nat) : String :=
  String.intercalate "\n"
    ((if 0 < i then [arr.getD (i - 1) ""] else [])
      ++ [arr.getD i ""] ++ (arr.drop (i + 1)).take 2)

/-- The whole excerpt, phrased as the claim phrases it: the windows of
the error lines in order, at most the first five, joined by the divider. -/
def specErrorExcerpt (output : String) : String :=
  let arr := linesOf output
  String.intercalate "\n--\n"
    ((((List.range arr.length).filter fun index =>
        strStartsWith (arr.getD index "") "Error:").map (specErrorWindow arr)).take 5)

/-- Helper: mapping an optional-valued conditional and collecting the
results is filtering followed by mapping. -/
theorem filterMap_map_if {α β : Type} (l : List α) (p : α → Bool) (g : α → β) :
    ((l.map fun a => if p a then some (g a) else none).filterMap id) = (l.filter p).map g := by
  induction l with
  | nil => rfl
  | cons a t ih =>
    cases h : p a <;> simp [h, List.filter_cons, ih]

/-- Helper: two elements dropped-then-taken from a list, written with the
two bound-checked lookups of the source. -/
theorem drop_take_two (arr : List String) (j : Nat) :
    (arr.drop j).take 2 =
      (if j < arr.length then [arr.getD j ""] else [])
        ++ (if j + 1 < arr.length then [arr.getD (j + 1) ""] else []) := by
  induction arr generalizing j with
  | nil => simp
  | cons a t ih =>
    cases j with
    | zero =>
      cases t with
      | nil => simp
      | cons b u => simp
    | succ k =>
      simp only [List.drop_succ_cons]
      rw [ih k]
      simp [Nat.succ_lt_succ_iff]

/-- Helper: the context window assembled by the source equals the window
of the claim. -/
theorem window_eq (arr : List String) (i : Nat) :
    ((if i > 0 then [arr.getD (i - 1) ""] else [])
      ++ [arr.getD i ""]
      ++ (if i < arr.length - 1 then [arr.getD (i + 1) ""] else [])
      ++ (if i < arr.length - 2 then [arr.getD (i + 2) ""] else []))
    = ((if 0 < i then [arr.getD (i - 1) ""] else [])
      ++ [arr.getD i ""] ++ (arr.drop (i + 1)).take 2) := by
  rw [drop_take_two arr (i + 1)]
  have h1 : (i < arr.length - 1) ↔ (i + 1 < arr.length) := by omega
  have h2 : (i < arr.length - 2) ↔ (i + 1 + 1 < arr.length) := by omega
  simp only [h1, h2, List.append_assoc]

/-- C8: the excerpt built from the type-check output gives, for each
line beginning with the error marker, a window of exactly one line
before and two lines after (when they exist), and at most the first five
such windows joined by the divider. -/
theorem C8_excerpt (output : String) :
    typeErrorLinesOf output = specErrorExcerpt output := by
  have harr := filterMap_map_if (List.range (linesOf output).length)
    (fun index => strStartsWith ((linesOf output).getD index "") "Error:")
    (fun index => String.intercalate "\n"
      ((if index > 0 then [(linesOf output).getD (index - 1) ""] else [])
        ++ [(linesOf output).getD index ""]
        ++ (if index < (linesOf output).length - 1 then [(linesOf output).getD (index + 1) ""] else [])
        ++ (if index < (linesOf output).length - 2 then [(linesOf output).getD (index + 2) ""] else [])))
  have hwin : (fun index => String.intercalate "\n"
      ((if index > 0 then [(linesOf output).getD (index - 1) ""] else [])
        ++ [(linesOf output).getD index ""]
        ++ (if index < (linesOf output).length - 1 then [(linesOf output).getD (index + 1) ""] else [])
        ++ (if index < (linesOf output).length - 2 then [(linesOf output).getD (index + 2) ""] else [])))
      = specErrorWindow (linesOf output) :=
    funext fun i => congrArg (String.intercalate "\n") (window_eq (linesOf output) i)
  simp only [typeErrorLinesOf, specErrorExcerpt]
  rw [harr, hwin]

end OpioHook
